import Mathlib

/-!
Shallow embedding of `src/functions.py` (COVID data-analysis helpers).

Modelling conventions:
* A Python `datetime.datetime` at midnight is represented by its
  proleptic-Gregorian ordinal (`date.toordinal()`), an `Int`;
  `datetime.timedelta(days = n)` is then integer addition/subtraction.
* A pandas `DataFrame` is a list of rows; a column is a projection
  function out of the row type.  Boolean-mask selection is `List.filter`,
  `pd.concat` is list append, both of which preserve row order exactly
  as pandas does for these operations.
* A Python exception (`ValueError` from `strptime`, `NameError` from the
  unbound `subset` variable) is `Option.none`.
* A Python `dict` built by inserting distinct keys in a fixed order is an
  association list in that insertion order.
* Numeric column entries are modelled as `Int`; the claims under study
  are structural (lengths, positions, subtraction patterns) and do not
  depend on the numeric representation.
-/

namespace CovidAnalysis

/-! ### Calendar arithmetic (Python `datetime` ordinals) -/

/-- Leap-year test of the proleptic Gregorian calendar, as used by
`datetime.date`. -/
def isLeapYear (y : Int) : Bool :=
  (y % 4 == 0 && y % 100 != 0) || y % 400 == 0

/-- Number of days in month `m` (1–12) of year `y`, as in `datetime.date`. -/
def daysInMonth (y : Int) (m : Nat) : Nat :=
  if m == 2 then (if isLeapYear y then 29 else 28)
  else if m == 4 || m == 6 || m == 9 || m == 11 then 30
  else 31

/-- Days in year `y` strictly before month `m`. -/
def daysBeforeMonth (y : Int) (m : Nat) : Nat :=
  ((List.range (m - 1)).map (fun k => daysInMonth y (k + 1))).sum

/-- The proleptic-Gregorian ordinal of the date `y-m-d`, exactly
`datetime.date(y, m, d).toordinal()` (day 1 is 0001-01-01). -/
def toOrdinal (y : Int) (m : Nat) (d : Nat) : Int :=
  365 * (y - 1) + (y - 1) / 4 - (y - 1) / 100 + (y - 1) / 400
    + daysBeforeMonth y m + d

/-! ### `strptime(date_str, "%Y-%m-%d")`

CPython's `_strptime` compiles the directives to the regular-expression
fragments `%Y ↦ \d\d\d\d`, `%m ↦ 1[0-2]|0[1-9]|[1-9]`,
`%d ↦ 3[0-1]|[1-2]\d|0[1-9]|[1-9]| [1-9]` (note the final alternative: a
space-padded single-digit day is accepted), matches the whole pattern at
the start of the string, rejects leftover characters
("unconverted data remains"),
and finally the `datetime` constructor validates the day against the
month length.  All failures raise `ValueError`; here they are `none`.
The parsers below realise exactly those regex fragments (the alternation
is ordered and, as one checks case by case, backtracking never turns an
overall failure into a success for this pattern, so the deterministic
reading used here is faithful). -/

/-- Numeric value of a decimal digit character. -/
def digitVal (c : Char) : Nat := c.toNat - 48

/-- Month matcher, regex `1[0-2]|0[1-9]|[1-9]`: returns the month and the
unconsumed characters. -/
def parseMonth : List Char → Option (Nat × List Char)
  | '1' :: c :: rest =>
      if '0' ≤ c ∧ c ≤ '2' then some (10 + digitVal c, rest)
      else some (1, c :: rest)
  | '0' :: c :: rest =>
      if '1' ≤ c ∧ c ≤ '9' then some (digitVal c, rest) else none
  | c :: rest =>
      if '1' ≤ c ∧ c ≤ '9' then some (digitVal c, rest) else none
  | [] => none

/-- Day-of-month matcher, regex `3[0-1]|[1-2]\d|0[1-9]|[1-9]| [1-9]`:
returns the day and the unconsumed characters.  The last alternative
accepts a space-padded single-digit day; no other alternative starts
with a space, so the branches are disjoint on the first character. -/
def parseDay : List Char → Option (Nat × List Char)
  | '3' :: c :: rest =>
      if c = '0' ∨ c = '1' then some (30 + digitVal c, rest)
      else some (3, c :: rest)
  | ' ' :: c :: rest =>
      if '1' ≤ c ∧ c ≤ '9' then some (digitVal c, rest) else none
  | c1 :: c2 :: rest =>
      if (c1 = '1' ∨ c1 = '2') ∧ c2.isDigit then
        some (10 * digitVal c1 + digitVal c2, rest)
      else if c1 = '0' ∧ ('1' ≤ c2 ∧ c2 ≤ '9') then some (digitVal c2, rest)
      else if '1' ≤ c1 ∧ c1 ≤ '9' then some (digitVal c1, c2 :: rest)
      else none
  | [c] => if '1' ≤ c ∧ c ≤ '9' then some (digitVal c, []) else none
  | [] => none

/-- Embedding of `datetime.datetime.strptime(s, "%Y-%m-%d")`, returning
the ordinal of the parsed date, or `none` where Python raises
`ValueError` (pattern mismatch, leftover characters, or an out-of-range
year/day). -/
def parseYMD (s : String) : Option Int :=
  match s.data with
  | y1 :: y2 :: y3 :: y4 :: '-' :: rest =>
      if y1.isDigit && y2.isDigit && y3.isDigit && y4.isDigit then
        let y : Int :=
          (1000 * digitVal y1 + 100 * digitVal y2 + 10 * digitVal y3
            + digitVal y4 : Nat)
        match parseMonth rest with
        | some (m, '-' :: rest2) =>
            match parseDay rest2 with
            | some (d, []) =>
                if 1 ≤ y ∧ 1 ≤ d ∧ d ≤ daysInMonth y m then
                  some (toOrdinal y m d)
                else none
            | _ => none
        | _ => none
      else none
  | _ => none

/-! ### `get_date_range` -/

/-- Embedding of `get_date_range(chosen_date, days)`: the start date is
`chosen_date - timedelta(days)`, then the loop `for i in range(7)`
collects `start_date + timedelta(i)`. -/
def get_date_range (chosen_date : Int) (days : Int) : List Int :=
  let start_date := chosen_date - days
  (List.range 7).map (fun i => start_date + (i : Int))

/-! ### `get_matching_entries` -/

/-- One window's worth of rows for reference-date string `s`: the rows of
`data` whose date column lies in the 7-date window of `s` (empty when `s`
does not parse; only used in statements under a hypothesis that excludes
that case). -/
def windowRows (data : List ρ) (date_column : ρ → Int) (days : Int)
    (s : String) : List ρ :=
  match parseYMD s with
  | some d => data.filter (fun r => decide (date_column r ∈ get_date_range d days))
  | none => []

/-- The `for date_str in dates_of_interest` loop of `get_matching_entries`,
with `matching_entries` the accumulator (initially the empty table).  A
`strptime` failure aborts the whole call with the exception (`none`);
otherwise the rows whose `date_column` value is in the 7-date window
(`.isin(date_range)` mask) are appended (`pd.concat`). -/
def gme_loop (data : List ρ) (date_column : ρ → Int) (days : Int) :
    List String → List ρ → Option (List ρ)
  | [], matching_entries => some matching_entries
  | date_str :: rest, matching_entries =>
      match parseYMD date_str with
      | none => none
      | some date_obj =>
          let date_range := get_date_range date_obj days
          let matching_df :=
            data.filter (fun r => decide (date_column r ∈ date_range))
          gme_loop data date_column days rest (matching_entries ++ matching_df)

/-- Embedding of `get_matching_entries(dates_of_interest, data,
date_column, days)`. -/
def get_matching_entries (dates_of_interest : List String) (data : List ρ)
    (date_column : ρ → Int) (days : Int) : Option (List ρ) :=
  gme_loop data date_column days dates_of_interest []

/-! ### `find_word`

The source builds the pattern `rf"\b{word}s?\b"` and keeps the rows whose
text column matches it (`str.contains`, `regex=True`).  For a `word` made
of word-characters (`\w`, i.e. alphanumerics or underscore — the only
case the spec speaks about), `\b` before the match means position 0 or a
non-word character just before, and `\b` after the match means end of
string or a non-word character just after; `s?` tries both the bare word
and the word with a trailing `s`. -/

/-- A row of the multi-indexed frame passed to `calculate_differences`:
the grouping-key index level, the `date` index level, the designated
value column and the `"fatalities, %"` column. -/
structure SRow (κ : Type) where
  key : κ
  date : Int
  value : Int
  fat : Int
deriving DecidableEq

/-- The tuple returned by `calculate_differences`: the two dicts (as
association lists in insertion order), the date axis and the unique key
values. -/
structure DiffResult (κ : Type) where
  differences : List (κ × List Int)
  differences_fatalities : List (κ × List Int)
  dates : List Int
  unique_values : List κ
deriving DecidableEq

/-- Embedding of `np.diff` on a one-dimensional sequence. -/
def npDiff : List Int → List Int
  | a :: b :: rest => (b - a) :: npDiff (b :: rest)
  | _ => []

/-- Embedding of pandas `Index.unique()`: the distinct values in order of
first occurrence. -/
def uniqueFirst [DecidableEq κ] : List κ → List κ
  | [] => []
  | a :: l => a :: (uniqueFirst l).filter (fun b => decide (b ≠ a))

/-- The boolean-mask selection
`data[data.index.get_level_values(index_column) == value]`. -/
def subsetOf [DecidableEq κ] (data : List (SRow κ)) (v : κ) : List (SRow κ) :=
  data.filter (fun r => decide (r.key = v))

/-- Embedding of `calculate_differences(data, index_column, value_column)`.
The loop stores `np.diff` of the value column and of the
`"fatalities, %"` column per unique key, in the order of
`unique_values`; after the loop, `dates` is read from the loop variable
`subset`, i.e. from the last key's subset, with its first date dropped
(`[1:]`).  When `data` is empty the loop body never runs and reading
`subset` raises `NameError` in the source, modelled by `none`. -/
def calculate_differences [DecidableEq κ] (data : List (SRow κ)) :
    Option (DiffResult κ) :=
  let unique_values := uniqueFirst (data.map SRow.key)
  match unique_values.getLast? with
  | none => none
  | some last =>
      some
        { differences := unique_values.map
            (fun v => (v, npDiff ((subsetOf data v).map SRow.value)))
          differences_fatalities := unique_values.map
            (fun v => (v, npDiff ((subsetOf data v).map SRow.fat)))
          dates := ((subsetOf data last).map SRow.date).drop 1
          unique_values := unique_values }

/-! ## Helper lemmas -/

theorem npDiff_length : ∀ xs : List Int, (npDiff xs).length = xs.length - 1
  | [] => rfl
  | [_] => rfl
  | a :: b :: r => by
      have h := npDiff_length (b :: r)
      simp only [npDiff, List.length_cons] at h ⊢
      omega

theorem npDiff_getD : ∀ (xs : List Int) (i : Nat), i + 1 < xs.length →
    (npDiff xs).getD i 0 = xs.getD (i + 1) 0 - xs.getD i 0
  | [], _, h => by simp at h
  | [_], _, h => by simp at h
  | _ :: _ :: _, 0, _ => by simp [npDiff]
  | a :: b :: r, i + 1, h => by
      have hr : i + 1 < (b :: r).length := by
        simpa using Nat.lt_of_succ_lt_succ h
      simpa [npDiff] using npDiff_getD (b :: r) i hr

theorem npDiff_of_short : ∀ xs : List Int, xs.length ≤ 1 → npDiff xs = []
  | [], _ => rfl
  | [_], _ => rfl
  | _ :: _ :: _, h => by simp at h

theorem lookup_map_self {κ α : Type} [DecidableEq κ] (f : κ → α) :
    ∀ (l : List κ) (v : κ), v ∈ l →
      (l.map (fun x => (x, f x))).lookup v = some (f v) := by
  intro l
  induction l with
  | nil => intro v hv; cases hv
  | cons a t ih =>
      intro v hv
      by_cases h : v = a
      · subst h; simp [List.lookup]
      · have hvt : v ∈ t := by
          rcases List.mem_cons.1 hv with h1 | h1
          · exact absurd h1 h
          · exact h1
        have hbf : (v == a) = false := beq_eq_false_iff_ne.2 h
        simpa [List.lookup, hbf] using ih v hvt

theorem mem_uniqueFirst {κ : Type} [DecidableEq κ] :
    ∀ (l : List κ) (a : κ), a ∈ uniqueFirst l ↔ a ∈ l := by
  intro l
  induction l with
  | nil => intro a; simp [uniqueFirst]
  | cons x t ih =>
      intro a
      by_cases h : a = x
      · subst h; simp [uniqueFirst]
      · simp [uniqueFirst, List.mem_filter, h, ih a]

theorem nodup_uniqueFirst {κ : Type} [DecidableEq κ] :
    ∀ l : List κ, (uniqueFirst l).Nodup := by
  intro l
  induction l with
  | nil => exact List.nodup_nil
  | cons x t ih =>
      refine List.nodup_cons.2 ⟨?_, List.Nodup.filter _ ih⟩
      intro hx
      have := (List.mem_filter.1 hx).2
      simp at this

theorem pairwise_indexOf_uniqueFirst {κ : Type} [DecidableEq κ] :
    ∀ l : List κ,
      (uniqueFirst l).Pairwise (fun a b => l.indexOf a < l.indexOf b) := by
  intro l
  induction l with
  | nil => exact List.Pairwise.nil
  | cons x t ih =>
      refine List.pairwise_cons.2 ⟨?_, ?_⟩
      · intro b hb
        have hbx : b ≠ x := by
          have := (List.mem_filter.1 hb).2
          simpa using this
        rw [List.indexOf_cons_self, List.indexOf_cons_ne _ hbx.symm]
        exact Nat.succ_pos _
      · have hp : ((uniqueFirst t).filter (fun b => decide (b ≠ x))).Pairwise
            (fun a b => t.indexOf a < t.indexOf b) :=
          List.Pairwise.filter _ ih
        refine List.Pairwise.imp_of_mem ?_ hp
        intro a b ha hb hab
        have hax : a ≠ x := by simpa using (List.mem_filter.1 ha).2
        have hbx : b ≠ x := by simpa using (List.mem_filter.1 hb).2
        rw [List.indexOf_cons_ne _ hax.symm, List.indexOf_cons_ne _ hbx.symm]
        exact Nat.succ_lt_succ hab

theorem gme_loop_some {ρ : Type} (data : List ρ) (dc : ρ → Int) (days : Int) :
    ∀ (dates : List String) (acc : List ρ),
      (∀ s ∈ dates, parseYMD s ≠ none) →
      gme_loop data dc days dates acc =
        some (acc ++ (dates.map (windowRows data dc days)).flatten) := by
  intro dates
  induction dates with
  | nil => intro acc _; simp [gme_loop]
  | cons s rest ih =>
      intro acc hp
      obtain ⟨d, hd⟩ : ∃ d, parseYMD s = some d := by
        cases h : parseYMD s with
        | none => exact absurd h (hp s (List.mem_cons_self s rest))
        | some d => exact ⟨d, rfl⟩
      have hrest : ∀ u ∈ rest, parseYMD u ≠ none := fun u hu =>
        hp u (List.mem_cons_of_mem s hu)
      simp [gme_loop, hd, windowRows, ih _ hrest, List.append_assoc]

theorem map_fst_map_pair {κ α : Type} (f : κ → α) :
    ∀ l : List κ, (l.map (fun x => (x, f x))).map Prod.fst = l := by
  intro l
  induction l with
  | nil => rfl
  | cons a t ih => simp [ih]

theorem uniqueFirst_ne_nil {κ : Type} [DecidableEq κ] (l : List κ)
    (h : l ≠ []) : uniqueFirst l ≠ [] := by
  cases l with
  | nil => exact absurd rfl h
  | cons a t => simp [uniqueFirst]

theorem calculate_differences_inv {κ : Type} [DecidableEq κ]
    (data : List (SRow κ)) (out : DiffResult κ)
    (hout : calculate_differences data = some out) :
    ∃ last, (uniqueFirst (data.map SRow.key)).getLast? = some last ∧
      out.differences = (uniqueFirst (data.map SRow.key)).map
        (fun v => (v, npDiff ((subsetOf data v).map SRow.value))) ∧
      out.differences_fatalities = (uniqueFirst (data.map SRow.key)).map
        (fun v => (v, npDiff ((subsetOf data v).map SRow.fat))) ∧
      out.dates = ((subsetOf data last).map SRow.date).drop 1 ∧
      out.unique_values = uniqueFirst (data.map SRow.key) := by
  simp only [calculate_differences] at hout
  cases h : (uniqueFirst (data.map SRow.key)).getLast? with
  | none => rw [h] at hout; cases hout
  | some last =>
      rw [h] at hout
      simp only [Option.some.injEq] at hout
      exact ⟨last, rfl, by rw [← hout], by rw [← hout], by rw [← hout],
        by rw [← hout]⟩

/-! ## Claim theorems -/

/-- C1: for every reference date `D` and every integer `days`,
`get_date_range D days` is a list of exactly 7 dates, strictly increasing
by one calendar day per element, whose first element is `D` minus `days`
calendar days; the length is 7 regardless of `days`. -/
theorem get_date_range_window (D days : Int) :
    (get_date_range D days).length = 7 ∧
    (get_date_range D days).head? = some (D - days) ∧
    (get_date_range D days).Chain' (fun a b => b = a + 1) := by
  have h7 : List.range 7 = [0, 1, 2, 3, 4, 5, 6] := rfl
  refine ⟨rfl, ?_, ?_⟩
  · simp [get_date_range, h7]
  · simp only [get_date_range, h7, List.map_cons, List.map_nil,
      List.chain'_cons, List.chain'_singleton, and_true]
    norm_num
    all_goals omega

/-- C7: called with an empty list of reference dates,
`get_matching_entries` returns the empty table, for every input table,
date column and `days` value. -/
theorem get_matching_entries_empty_dates {ρ : Type} (data : List ρ)
    (date_column : ρ → Int) (days : Int) :
    get_matching_entries [] data date_column days = some [] := rfl

/-- C4: when every reference-date string parses, `get_matching_entries`
returns exactly the concatenation, over the reference dates in order, of
the rows of `data` falling in each date's 7-date window (in table order,
one occurrence per window that matches, with no deduplication), and hence
its row count is the sum of the per-window row counts. -/
theorem get_matching_entries_window_concat {ρ : Type}
    (dates_of_interest : List String) (data : List ρ)
    (date_column : ρ → Int) (days : Int) (hne : dates_of_interest ≠ [])
    (hp : ∀ s ∈ dates_of_interest, parseYMD s ≠ none) :
    get_matching_entries dates_of_interest data date_column days =
      some ((dates_of_interest.map (windowRows data date_column days)).flatten) ∧
    ((dates_of_interest.map (windowRows data date_column days)).flatten).length =
      (dates_of_interest.map
        (fun s => (windowRows data date_column days s).length)).sum := by
  refine ⟨?_, ?_⟩
  · simpa [get_matching_entries] using
      gme_loop_some data date_column days dates_of_interest [] hp
  · simp [List.length_flatten, List.map_map]
    rfl

/-- Witness for C4 at a concrete input: one reference date, a two-row
table with one row inside the window. -/
theorem get_matching_entries_window_concat_witness :
    (["2023-05-01"] ≠ ([] : List String)) ∧
    (∀ s ∈ ["2023-05-01"], parseYMD s ≠ none) ∧
    (get_matching_entries ["2023-05-01"] [(738640 : Int), 738641] id 7 =
      some ((["2023-05-01"].map
        (windowRows [(738640 : Int), 738641] id 7)).flatten) ∧
    ((["2023-05-01"].map
        (windowRows [(738640 : Int), 738641] id 7)).flatten).length =
      (["2023-05-01"].map
        (fun s => (windowRows [(738640 : Int), 738641] id 7 s).length)).sum) :=
  ⟨by decide, by decide,
    get_matching_entries_window_concat ["2023-05-01"]
      [(738640 : Int), 738641] id 7 (by decide) (by decide)⟩

/-- C2: on every table with at least one row, `calculate_differences`
returns as its date axis one single sequence, namely the date labels of
the subset of the last group key (last in the first-occurrence order of
`unique_values`) with that group's first date dropped. -/
theorem calculate_differences_dates_last_group {κ : Type} [DecidableEq κ]
    (data : List (SRow κ)) (hne : data ≠ []) :
    ∃ out last, calculate_differences data = some out ∧
      out.unique_values.getLast? = some last ∧
      out.dates = ((subsetOf data last).map SRow.date).drop 1 := by
  have hkeys : data.map SRow.key ≠ [] := by
    cases data with
    | nil => exact absurd rfl hne
    | cons r t => simp
  have huv : uniqueFirst (data.map SRow.key) ≠ [] :=
    uniqueFirst_ne_nil _ hkeys
  obtain ⟨last, hlast⟩ : ∃ last,
      (uniqueFirst (data.map SRow.key)).getLast? = some last := by
    cases h : (uniqueFirst (data.map SRow.key)).getLast? with
    | none => exact absurd (List.getLast?_eq_none_iff.1 h) huv
    | some a => exact ⟨a, rfl⟩
  refine ⟨⟨(uniqueFirst (data.map SRow.key)).map
      (fun v => (v, npDiff ((subsetOf data v).map SRow.value))),
    (uniqueFirst (data.map SRow.key)).map
      (fun v => (v, npDiff ((subsetOf data v).map SRow.fat))),
    ((subsetOf data last).map SRow.date).drop 1,
    uniqueFirst (data.map SRow.key)⟩, last, ?_, hlast, rfl⟩
  simp only [calculate_differences, hlast]

/-- Witness for C2: a two-group table; the date axis comes from group 1,
the last in first-occurrence order, with its first date dropped. -/
theorem calculate_differences_dates_last_group_witness :
    ([(⟨0, 100, 10, 1⟩ : SRow Nat), ⟨1, 200, 7, 2⟩, ⟨0, 101, 15, 3⟩,
        ⟨1, 201, 9, 5⟩] ≠ []) ∧
    ∃ out last,
      calculate_differences [(⟨0, 100, 10, 1⟩ : SRow Nat), ⟨1, 200, 7, 2⟩,
          ⟨0, 101, 15, 3⟩, ⟨1, 201, 9, 5⟩] = some out ∧
      out.unique_values.getLast? = some last ∧
      out.dates = ((subsetOf [(⟨0, 100, 10, 1⟩ : SRow Nat), ⟨1, 200, 7, 2⟩,
          ⟨0, 101, 15, 3⟩, ⟨1, 201, 9, 5⟩] last).map SRow.date).drop 1 :=
  ⟨by decide,
    calculate_differences_dates_last_group
      [(⟨0, 100, 10, 1⟩ : SRow Nat), ⟨1, 200, 7, 2⟩, ⟨0, 101, 15, 3⟩,
        ⟨1, 201, 9, 5⟩] (by decide)⟩

/-- C3: for every group key `v` whose subset has `k ≥ 2` rows, the
difference sequence recorded for `v` has length `k - 1` and element `i`
is `value (i+1) - value i` of that subset in table order; likewise for
the fatalities column. -/
theorem calculate_differences_group_diff {κ : Type} [DecidableEq κ]
    (data : List (SRow κ)) (out : DiffResult κ) (v : κ)
    (hout : calculate_differences data = some out)
    (hv : v ∈ out.unique_values)
    (hk : 2 ≤ (subsetOf data v).length) :
    ∃ d df, out.differences.lookup v = some d ∧
      out.differences_fatalities.lookup v = some df ∧
      d.length = (subsetOf data v).length - 1 ∧
      df.length = (subsetOf data v).length - 1 ∧
      (∀ i, i + 1 < (subsetOf data v).length →
        d.getD i 0 = ((subsetOf data v).map SRow.value).getD (i + 1) 0 -
          ((subsetOf data v).map SRow.value).getD i 0) ∧
      (∀ i, i + 1 < (subsetOf data v).length →
        df.getD i 0 = ((subsetOf data v).map SRow.fat).getD (i + 1) 0 -
          ((subsetOf data v).map SRow.fat).getD i 0) := by
  obtain ⟨last, _, hdiff, hfat, _, huv⟩ := calculate_differences_inv data out hout
  rw [huv] at hv
  refine ⟨npDiff ((subsetOf data v).map SRow.value),
    npDiff ((subsetOf data v).map SRow.fat), ?_, ?_, ?_, ?_, ?_, ?_⟩
  · rw [hdiff]; exact lookup_map_self _ _ v hv
  · rw [hfat]; exact lookup_map_self _ _ v hv
  · rw [npDiff_length, List.length_map]
  · rw [npDiff_length, List.length_map]
  · intro i hi
    exact npDiff_getD _ i (by simpa using hi)
  · intro i hi
    exact npDiff_getD _ i (by simpa using hi)

/-- Witness for C3: group 0 of the two-group table has rows with values
`[10, 15]` and fatalities `[1, 3]`. -/
theorem calculate_differences_group_diff_witness :
    (calculate_differences [(⟨0, 100, 10, 1⟩ : SRow Nat), ⟨1, 200, 7, 2⟩,
        ⟨0, 101, 15, 3⟩, ⟨1, 201, 9, 5⟩] =
      some ⟨[(0, [5]), (1, [2])], [(0, [2]), (1, [3])], [201], [0, 1]⟩) ∧
    (0 ∈ (⟨[(0, [5]), (1, [2])], [(0, [2]), (1, [3])], [201], [0, 1]⟩ :
        DiffResult Nat).unique_values) ∧
    2 ≤ (subsetOf [(⟨0, 100, 10, 1⟩ : SRow Nat), ⟨1, 200, 7, 2⟩,
        ⟨0, 101, 15, 3⟩, ⟨1, 201, 9, 5⟩] 0).length ∧
    ∃ d df,
      (⟨[(0, [5]), (1, [2])], [(0, [2]), (1, [3])], [201], [0, 1]⟩ :
          DiffResult Nat).differences.lookup 0 = some d ∧
      (⟨[(0, [5]), (1, [2])], [(0, [2]), (1, [3])], [201], [0, 1]⟩ :
          DiffResult Nat).differences_fatalities.lookup 0 = some df ∧
      d.length = (subsetOf [(⟨0, 100, 10, 1⟩ : SRow Nat), ⟨1, 200, 7, 2⟩,
          ⟨0, 101, 15, 3⟩, ⟨1, 201, 9, 5⟩] 0).length - 1 ∧
      df.length = (subsetOf [(⟨0, 100, 10, 1⟩ : SRow Nat), ⟨1, 200, 7, 2⟩,
          ⟨0, 101, 15, 3⟩, ⟨1, 201, 9, 5⟩] 0).length - 1 ∧
      (∀ i, i + 1 < (subsetOf [(⟨0, 100, 10, 1⟩ : SRow Nat), ⟨1, 200, 7, 2⟩,
          ⟨0, 101, 15, 3⟩, ⟨1, 201, 9, 5⟩] 0).length →
        d.getD i 0 = ((subsetOf [(⟨0, 100, 10, 1⟩ : SRow Nat), ⟨1, 200, 7, 2⟩,
          ⟨0, 101, 15, 3⟩, ⟨1, 201, 9, 5⟩] 0).map SRow.value).getD (i + 1) 0 -
          ((subsetOf [(⟨0, 100, 10, 1⟩ : SRow Nat), ⟨1, 200, 7, 2⟩,
          ⟨0, 101, 15, 3⟩, ⟨1, 201, 9, 5⟩] 0).map SRow.value).getD i 0) ∧
      (∀ i, i + 1 < (subsetOf [(⟨0, 100, 10, 1⟩ : SRow Nat), ⟨1, 200, 7, 2⟩,
          ⟨0, 101, 15, 3⟩, ⟨1, 201, 9, 5⟩] 0).length →
        df.getD i 0 = ((subsetOf [(⟨0, 100, 10, 1⟩ : SRow Nat), ⟨1, 200, 7, 2⟩,
          ⟨0, 101, 15, 3⟩, ⟨1, 201, 9, 5⟩] 0).map SRow.fat).getD (i + 1) 0 -
          ((subsetOf [(⟨0, 100, 10, 1⟩ : SRow Nat), ⟨1, 200, 7, 2⟩,
          ⟨0, 101, 15, 3⟩, ⟨1, 201, 9, 5⟩] 0).map SRow.fat).getD i 0) :=
  ⟨by decide, by decide, by decide,
    calculate_differences_group_diff
      [(⟨0, 100, 10, 1⟩ : SRow Nat), ⟨1, 200, 7, 2⟩, ⟨0, 101, 15, 3⟩,
        ⟨1, 201, 9, 5⟩]
      ⟨[(0, [5]), (1, [2])], [(0, [2]), (1, [3])], [201], [0, 1]⟩ 0
      (by decide) (by decide) (by decide)⟩

/-- C5: on every table with at least one row, `calculate_differences`
succeeds, and every group key whose subset has at most one row gets the
empty difference sequence in both mappings. -/
theorem calculate_differences_small_groups {κ : Type} [DecidableEq κ]
    (data : List (SRow κ)) (hne : data ≠ []) :
    ∃ out, calculate_differences data = some out ∧
      ∀ v ∈ out.unique_values, (subsetOf data v).length ≤ 1 →
        out.differences.lookup v = some [] ∧
        out.differences_fatalities.lookup v = some [] := by
  obtain ⟨out, last, hout, -, -⟩ :=
    calculate_differences_dates_last_group data hne
  obtain ⟨_, _, hdiff, hfat, _, huv⟩ := calculate_differences_inv data out hout
  refine ⟨out, hout, ?_⟩
  intro v hv hlen
  rw [huv] at hv
  have hval : npDiff ((subsetOf data v).map SRow.value) = [] :=
    npDiff_of_short _ (by simpa using hlen)
  have hfatv : npDiff ((subsetOf data v).map SRow.fat) = [] :=
    npDiff_of_short _ (by simpa using hlen)
  constructor
  · rw [hdiff]
    simpa [hval] using lookup_map_self
      (fun v => npDiff ((subsetOf data v).map SRow.value)) _ v hv
  · rw [hfat]
    simpa [hfatv] using lookup_map_self
      (fun v => npDiff ((subsetOf data v).map SRow.fat)) _ v hv

/-- Witness for C5: a table whose two groups both have a single row. -/
theorem calculate_differences_small_groups_witness :
    ([(⟨0, 100, 10, 1⟩ : SRow Nat), ⟨1, 200, 7, 2⟩] ≠ []) ∧
    ∃ out,
      calculate_differences [(⟨0, 100, 10, 1⟩ : SRow Nat), ⟨1, 200, 7, 2⟩] =
        some out ∧
      ∀ v ∈ out.unique_values,
        (subsetOf [(⟨0, 100, 10, 1⟩ : SRow Nat), ⟨1, 200, 7, 2⟩] v).length ≤ 1 →
          out.differences.lookup v = some [] ∧
          out.differences_fatalities.lookup v = some [] :=
  ⟨by decide,
    calculate_differences_small_groups
      [(⟨0, 100, 10, 1⟩ : SRow Nat), ⟨1, 200, 7, 2⟩] (by decide)⟩

/-- C10: whenever `calculate_differences` returns, the two mappings carry
exactly the keys of `unique_values`, in that order, and `unique_values`
is the list of distinct group keys of the table in first-occurrence
order, without repeats. -/
theorem calculate_differences_key_alignment {κ : Type} [DecidableEq κ]
    (data : List (SRow κ)) (out : DiffResult κ)
    (hout : calculate_differences data = some out) :
    out.differences.map Prod.fst = out.unique_values ∧
    out.differences_fatalities.map Prod.fst = out.unique_values ∧
    out.unique_values.Nodup ∧
    (∀ k, k ∈ out.unique_values ↔ k ∈ data.map SRow.key) ∧
    out.unique_values.Pairwise
      (fun a b =>
        (data.map SRow.key).indexOf a < (data.map SRow.key).indexOf b) := by
  obtain ⟨_, _, hdiff, hfat, _, huv⟩ := calculate_differences_inv data out hout
  refine ⟨?_, ?_, ?_, ?_, ?_⟩
  · rw [hdiff, huv, map_fst_map_pair]
  · rw [hfat, huv, map_fst_map_pair]
  · rw [huv]; exact nodup_uniqueFirst _
  · intro k; rw [huv]; exact mem_uniqueFirst _ k
  · rw [huv]; exact pairwise_indexOf_uniqueFirst _

/-- Witness for C10 on the two-group table. -/
theorem calculate_differences_key_alignment_witness :
    (calculate_differences [(⟨0, 100, 10, 1⟩ : SRow Nat), ⟨1, 200, 7, 2⟩,
        ⟨0, 101, 15, 3⟩, ⟨1, 201, 9, 5⟩] =
      some ⟨[(0, [5]), (1, [2])], [(0, [2]), (1, [3])], [201], [0, 1]⟩) ∧
    ((⟨[(0, [5]), (1, [2])], [(0, [2]), (1, [3])], [201], [0, 1]⟩ :
        DiffResult Nat).differences.map Prod.fst =
      (⟨[(0, [5]), (1, [2])], [(0, [2]), (1, [3])], [201], [0, 1]⟩ :
        DiffResult Nat).unique_values ∧
    (⟨[(0, [5]), (1, [2])], [(0, [2]), (1, [3])], [201], [0, 1]⟩ :
        DiffResult Nat).differences_fatalities.map Prod.fst =
      (⟨[(0, [5]), (1, [2])], [(0, [2]), (1, [3])], [201], [0, 1]⟩ :
        DiffResult Nat).unique_values ∧
    (⟨[(0, [5]), (1, [2])], [(0, [2]), (1, [3])], [201], [0, 1]⟩ :
        DiffResult Nat).unique_values.Nodup ∧
    (∀ k, k ∈ (⟨[(0, [5]), (1, [2])], [(0, [2]), (1, [3])], [201], [0, 1]⟩ :
        DiffResult Nat).unique_values ↔
      k ∈ [(⟨0, 100, 10, 1⟩ : SRow Nat), ⟨1, 200, 7, 2⟩, ⟨0, 101, 15, 3⟩,
        ⟨1, 201, 9, 5⟩].map SRow.key) ∧
    (⟨[(0, [5]), (1, [2])], [(0, [2]), (1, [3])], [201], [0, 1]⟩ :
        DiffResult Nat).unique_values.Pairwise
      (fun a b =>
        ([(⟨0, 100, 10, 1⟩ : SRow Nat), ⟨1, 200, 7, 2⟩, ⟨0, 101, 15, 3⟩,
          ⟨1, 201, 9, 5⟩].map SRow.key).indexOf a <
        ([(⟨0, 100, 10, 1⟩ : SRow Nat), ⟨1, 200, 7, 2⟩, ⟨0, 101, 15, 3⟩,
          ⟨1, 201, 9, 5⟩].map SRow.key).indexOf b)) :=
  ⟨by decide,
    calculate_differences_key_alignment
      [(⟨0, 100, 10, 1⟩ : SRow Nat), ⟨1, 200, 7, 2⟩, ⟨0, 101, 15, 3⟩,
        ⟨1, 201, 9, 5⟩]
      ⟨[(0, [5]), (1, [2])], [(0, [2]), (1, [3])], [201], [0, 1]⟩
      (by decide)⟩

end CovidAnalysis
